import Mathlib

/-!
# Real-estate deed front end (`App.js`): orchestration of wallet and ledger calls

A shallow embedding of the React component `App` of
`frontend/real-estate-nft-frontend/src/App.js`.

* The component state (the seven `useState` cells) and the values read from
  `useWallet()` (`connected`, `account`) form the record `AppState`.
* A handler is a closure over the values of the render that created it.  It is
  embedded as a function from that render's `AppState` to the ordered list of
  effects it performs (`Event`): state setter calls, the wallet call
  `signAndExecuteTransactionBlock`, the ledger query `getOwnedObjects`, and a
  marker for each invocation of `fetchDeeds`.  `console.log` / `console.error`
  are not recorded.
* What lies outside the file is a parameter (`Env`): the build-time constant
  `PACKAGE_ID`, the argument encoders of the transaction builder (they may
  throw), the outcome of the wallet call and the outcome of the ledger query.
* `fetchDeeds()` is called without `await`: its synchronous part (up to the
  `await client.getOwnedObjects`) runs inside the caller, the rest runs after
  the caller's `finally` block.  `fetchDeedsStart` / `fetchDeedsResume` are
  these two halves.
-/

namespace Suitest

/-! ## Data model -/

/-- The wallet account, `account` of `useWallet()`; only `account.address` is read. -/
structure Account where
  address : String
  deriving DecidableEq, Repr

/-- The `content` of an owned object; `type` may be missing (`content?.type?`). -/
structure ObjContent where
  type : Option String
  deriving DecidableEq, Repr

/-- The `data` of an owned object; `content` may be missing (`data?.content`). -/
structure ObjData where
  objectId : String
  content : Option ObjContent
  deriving DecidableEq, Repr

/-- One element of `ownedObjects.data`; `data` may be missing (`obj.data?`). -/
structure SuiObject where
  data : Option ObjData
  deriving DecidableEq, Repr

/-- The typed argument constructors used on the transaction builder:
`tx.pure.address`, `tx.pure.string`, `tx.pure.u64`, `tx.object`. -/
inductive ArgKind where
  | address
  | string
  | u64
  | object
  deriving DecidableEq, Repr

/-- One positional argument of a move call: which constructor built it and the
JavaScript value handed to the constructor. -/
structure Arg where
  kind : ArgKind
  value : String
  deriving DecidableEq, Repr

/-- The call descriptor given to `tx.moveCall`. -/
structure MoveCall where
  target : String
  arguments : List Arg
  deriving DecidableEq, Repr

/-- The state cells of `App` (lines 10-16) and the wallet values of line 17. -/
structure AppState where
  address : String
  titleStatus : String
  propertyValue : String
  feedback : String
  isLoading : Bool
  deeds : List SuiObject
  recipientAddress : String
  connected : Bool
  account : Option Account
  deriving DecidableEq, Repr

/-- The observable effects of the handlers, in the order they happen. -/
inductive Event where
  | setFeedback (msg : String)
  | setIsLoading (b : Bool)
  | setDeeds (ds : List SuiObject)
  | signAndExecuteTransactionBlock (call : MoveCall)
  | getOwnedObjects (owner : String)
  | fetchDeeds
  deriving DecidableEq, Repr

/-- Everything the component takes from outside the file.

* `PACKAGE_ID`: line 7.
* `encoderThrows k v`: `some m` when the builder's constructor `k` throws an
  error with message `m` on the value `v`, `none` when it returns.
* `nullAccountMessage`: the message of the `TypeError` raised by
  `account.address` when `account` is absent.
* `signOutcome call`: `.ok ()` when `signAndExecuteTransactionBlock` resolves,
  `.error m` when it throws an error with message `m`.
* `queryOutcome owner`: `.ok data` when `getOwnedObjects` resolves with
  `ownedObjects.data = data`, `.error m` when the `try` block of `fetchDeeds`
  throws. -/
structure Env where
  PACKAGE_ID : String
  encoderThrows : ArgKind → String → Option String
  nullAccountMessage : String
  signOutcome : MoveCall → Except String Unit
  queryOutcome : String → Except String (List SuiObject)

/-- The effect of one event on the state cells. -/
def applyEvent (s : AppState) : Event → AppState
  | .setFeedback m => { s with feedback := m }
  | .setIsLoading b => { s with isLoading := b }
  | .setDeeds ds => { s with deeds := ds }
  | .signAndExecuteTransactionBlock _ => s
  | .getOwnedObjects _ => s
  | .fetchDeeds => s

/-- The state cells after a list of events has been applied in order. -/
def exec (s : AppState) (evs : List Event) : AppState :=
  evs.foldl applyEvent s

/-! ## `fetchDeeds` (lines 27-47) -/

/-- `String.prototype.includes` on lists of characters: does `p` occur in `s`
as a contiguous run? -/
def includesChars : List Char → List Char → Bool
  | [], p => p.isEmpty
  | c :: cs, p => p.isPrefixOf (c :: cs) || includesChars cs p

/-- `s.includes(p)`. -/
def jsIncludes (s p : String) : Bool :=
  includesChars s.data p.data

/-- The template literal of line 38, the application's deed type. -/
def deedType (PACKAGE_ID : String) : String :=
  PACKAGE_ID ++ "::deed::RealEstateDeed"

/-- `obj.data?.content?.type`, the type string of an object when it has one. -/
def typeOf (obj : SuiObject) : Option String :=
  match obj.data with
  | none => none
  | some d =>
    match d.content with
    | none => none
    | some c => c.type

/-- The filter callback of lines 37-39; a missing `data`, `content` or `type`
gives `undefined`, which `filter` treats as false. -/
def isDeed (PACKAGE_ID : String) (obj : SuiObject) : Bool :=
  match typeOf obj with
  | none => false
  | some t => jsIncludes t (deedType PACKAGE_ID)

/-- Lines 28-35: the part of `fetchDeeds` that runs before its `await`.  The
guard of line 28 returns at once; otherwise the query is issued. -/
def fetchDeedsStart (_env : Env) (s : AppState) : List Event :=
  .fetchDeeds ::
    (if !s.connected then []
     else match s.account with
       | none => []
       | some a => [.getOwnedObjects a.address])

/-- Lines 36-46: the part of `fetchDeeds` that runs once the query settles. -/
def fetchDeedsResume (env : Env) (s : AppState) : List Event :=
  if !s.connected then []
  else match s.account with
    | none => []
    | some a =>
      match env.queryOutcome a.address with
      | .ok data => [.setDeeds (data.filter (isDeed env.PACKAGE_ID))]
      | .error _ => [.setFeedback "Error fetching deeds. Please try again."]

/-- A whole run of `fetchDeeds`. -/
def fetchDeeds (env : Env) (s : AppState) : List Event :=
  fetchDeedsStart env s ++ fetchDeedsResume env s

/-- The effect of lines 19-25, run by React after a render in which
`connected` or `account` changed; `s` holds the values of that render. -/
def connectionEffect (env : Env) (s : AppState) : List Event :=
  if s.connected && s.account.isSome then fetchDeeds env s
  else [.setDeeds []]

/-! ## Building the call descriptors -/

/-- A call of one of the builder's argument constructors on a value. -/
def mkArg (env : Env) (k : ArgKind) (v : String) : Except String Arg :=
  match env.encoderThrows k v with
  | some m => .error m
  | none => .ok { kind := k, value := v }

/-- Lines 61-70.  `account.address` is evaluated first and throws when the
account is absent; the arguments are then built left to right. -/
def mintTx (env : Env) (s : AppState) : Except String MoveCall :=
  match s.account with
  | none => .error env.nullAccountMessage
  | some acct => do
    let a0 ← mkArg env .address acct.address
    let a1 ← mkArg env .string s.address
    let a2 ← mkArg env .string s.titleStatus
    let a3 ← mkArg env .u64 s.propertyValue
    pure { target := env.PACKAGE_ID ++ "::deed::mint_deed", arguments := [a0, a1, a2, a3] }

/-- Lines 97-104. -/
def transferTx (env : Env) (s : AppState) (deedId : String) : Except String MoveCall := do
  let a0 ← mkArg env .object deedId
  let a1 ← mkArg env .address s.recipientAddress
  pure { target := env.PACKAGE_ID ++ "::deed::transfer_deed", arguments := [a0, a1] }

/-- Lines 129-136. -/
def updateTitleStatusTx (env : Env) (deedId newStatus : String) : Except String MoveCall := do
  let a0 ← mkArg env .object deedId
  let a1 ← mkArg env .string newStatus
  pure { target := env.PACKAGE_ID ++ "::deed::update_title_status", arguments := [a0, a1] }

/-- Lines 161-168. -/
def updatePropertyValueTx (env : Env) (deedId newValue : String) : Except String MoveCall := do
  let a0 ← mkArg env .object deedId
  let a1 ← mkArg env .u64 newValue
  pure { target := env.PACKAGE_ID ++ "::deed::update_property_value", arguments := [a0, a1] }

/-! ## The four handlers

Each handler is `guard; setIsLoading(true); setFeedback(''); try/catch/finally`.
There are three ways out of the `try`: building the call throws, the wallet
call throws, or everything succeeds.  The `finally` block
(`setIsLoading(false)`) is written at the end of each of them; in the third
it comes after the synchronous half of the un-awaited `fetchDeeds()` and
before the half that runs when the query settles. -/

/-- Lines 49-87. -/
def mintDeed (env : Env) (s : AppState) : List Event :=
  if !s.connected then
    [.setFeedback "Please connect your wallet first"]
  else if env.PACKAGE_ID = "" then
    [.setFeedback "PACKAGE_ID is not set. Please check your environment variables."]
  else
    [.setIsLoading true, .setFeedback ""] ++
    (match mintTx env s with
     | .error m => [.setFeedback ("Error: " ++ m), .setIsLoading false]
     | .ok tx =>
       .signAndExecuteTransactionBlock tx ::
       (match env.signOutcome tx with
        | .error m => [.setFeedback ("Error: " ++ m), .setIsLoading false]
        | .ok _ =>
          [.setFeedback "Deed minted successfully!"] ++ fetchDeedsStart env s ++
          [.setIsLoading false] ++ fetchDeedsResume env s))

/-- Lines 89-119. -/
def transferDeed (env : Env) (s : AppState) (deedId : String) : List Event :=
  if !s.connected || s.recipientAddress == "" then
    [.setFeedback "Please connect your wallet and enter a recipient address"]
  else
    [.setIsLoading true, .setFeedback ""] ++
    (match transferTx env s deedId with
     | .error m => [.setFeedback ("Error: " ++ m), .setIsLoading false]
     | .ok tx =>
       .signAndExecuteTransactionBlock tx ::
       (match env.signOutcome tx with
        | .error m => [.setFeedback ("Error: " ++ m), .setIsLoading false]
        | .ok _ =>
          [.setFeedback "Deed transferred successfully!"] ++ fetchDeedsStart env s ++
          [.setIsLoading false] ++ fetchDeedsResume env s))

/-- Lines 121-151. -/
def updateTitleStatus (env : Env) (s : AppState) (deedId newStatus : String) : List Event :=
  if !s.connected then
    [.setFeedback "Please connect your wallet first"]
  else
    [.setIsLoading true, .setFeedback ""] ++
    (match updateTitleStatusTx env deedId newStatus with
     | .error m => [.setFeedback ("Error: " ++ m), .setIsLoading false]
     | .ok tx =>
       .signAndExecuteTransactionBlock tx ::
       (match env.signOutcome tx with
        | .error m => [.setFeedback ("Error: " ++ m), .setIsLoading false]
        | .ok _ =>
          [.setFeedback "Deed title status updated successfully!"] ++ fetchDeedsStart env s ++
          [.setIsLoading false] ++ fetchDeedsResume env s))

/-- Lines 153-183. -/
def updatePropertyValue (env : Env) (s : AppState) (deedId newValue : String) : List Event :=
  if !s.connected then
    [.setFeedback "Please connect your wallet first"]
  else
    [.setIsLoading true, .setFeedback ""] ++
    (match updatePropertyValueTx env deedId newValue with
     | .error m => [.setFeedback ("Error: " ++ m), .setIsLoading false]
     | .ok tx =>
       .signAndExecuteTransactionBlock tx ::
       (match env.signOutcome tx with
        | .error m => [.setFeedback ("Error: " ++ m), .setIsLoading false]
        | .ok _ =>
          [.setFeedback "Deed property value updated successfully!"] ++ fetchDeedsStart env s ++
          [.setIsLoading false] ++ fetchDeedsResume env s))

/-! ## The four intents, uniformly -/

/-- An intent issued by the presentation layer, with the handler's arguments. -/
inductive Intent where
  | mintDeed
  | transferDeed (deedId : String)
  | updateTitleStatus (deedId newStatus : String)
  | updatePropertyValue (deedId newValue : String)
  deriving DecidableEq, Repr

/-- The handler of an intent. -/
def handle (env : Env) (s : AppState) : Intent → List Event
  | .mintDeed => mintDeed env s
  | .transferDeed deedId => transferDeed env s deedId
  | .updateTitleStatus deedId newStatus => updateTitleStatus env s deedId newStatus
  | .updatePropertyValue deedId newValue => updatePropertyValue env s deedId newValue

/-- The guards at the head of each handler (lines 50-57, 90-93, 122-125,
154-157): true when the handler goes on to `setIsLoading(true)`. -/
def validationPasses (env : Env) (s : AppState) : Intent → Bool
  | .mintDeed => s.connected && decide (env.PACKAGE_ID ≠ "")
  | .transferDeed _ => s.connected && decide (s.recipientAddress ≠ "")
  | .updateTitleStatus _ _ => s.connected
  | .updatePropertyValue _ _ => s.connected

/-- The feedback published when the guards reject the intent. -/
def rejectionMessage (s : AppState) : Intent → String
  | .mintDeed =>
    if !s.connected then "Please connect your wallet first"
    else "PACKAGE_ID is not set. Please check your environment variables."
  | .transferDeed _ => "Please connect your wallet and enter a recipient address"
  | .updateTitleStatus _ _ => "Please connect your wallet first"
  | .updatePropertyValue _ _ => "Please connect your wallet first"

/-- The call descriptor an intent builds inside its `try` block. -/
def buildTx (env : Env) (s : AppState) : Intent → Except String MoveCall
  | .mintDeed => mintTx env s
  | .transferDeed deedId => transferTx env s deedId
  | .updateTitleStatus deedId newStatus => updateTitleStatusTx env deedId newStatus
  | .updatePropertyValue deedId newValue => updatePropertyValueTx env deedId newValue

/-- The feedback published after the wallet call has resolved. -/
def successMessage : Intent → String
  | .mintDeed => "Deed minted successfully!"
  | .transferDeed _ => "Deed transferred successfully!"
  | .updateTitleStatus _ _ => "Deed title status updated successfully!"
  | .updatePropertyValue _ _ => "Deed property value updated successfully!"

/-- The submission of an intent is confirmed: its guards pass, its call
descriptor builds and `signAndExecuteTransactionBlock` resolves. -/
def confirmed (env : Env) (s : AppState) (i : Intent) : Bool :=
  validationPasses env s i &&
    (match buildTx env s i with
     | .error _ => false
     | .ok tx =>
       match env.signOutcome tx with
       | .error _ => false
       | .ok _ => true)

/-! ## Reading a list of effects -/

/-- The call descriptors handed to `signAndExecuteTransactionBlock`, in order. -/
def walletCalls : List Event → List MoveCall
  | [] => []
  | .signAndExecuteTransactionBlock tx :: evs => tx :: walletCalls evs
  | _ :: evs => walletCalls evs

/-- The owner addresses of the `getOwnedObjects` queries, in order. -/
def ledgerQueries : List Event → List String
  | [] => []
  | .getOwnedObjects owner :: evs => owner :: ledgerQueries evs
  | _ :: evs => ledgerQueries evs

/-- Is the event a write of the deeds cache? -/
def Event.isSetDeeds : Event → Bool
  | .setDeeds _ => true
  | _ => false

/-- The call descriptor the specification prescribes for an intent: the named
remote function under `PACKAGE_ID::deed` and its positional, typed arguments.
`owner` is the address of the connected account. -/
def specCall (PACKAGE_ID owner : String) (s : AppState) : Intent → MoveCall
  | .mintDeed =>
    { target := PACKAGE_ID ++ "::deed::mint_deed"
      arguments := [⟨.address, owner⟩, ⟨.string, s.address⟩, ⟨.string, s.titleStatus⟩,
        ⟨.u64, s.propertyValue⟩] }
  | .transferDeed deedId =>
    { target := PACKAGE_ID ++ "::deed::transfer_deed"
      arguments := [⟨.object, deedId⟩, ⟨.address, s.recipientAddress⟩] }
  | .updateTitleStatus deedId newStatus =>
    { target := PACKAGE_ID ++ "::deed::update_title_status"
      arguments := [⟨.object, deedId⟩, ⟨.string, newStatus⟩] }
  | .updatePropertyValue deedId newValue =>
    { target := PACKAGE_ID ++ "::deed::update_property_value"
      arguments := [⟨.object, deedId⟩, ⟨.u64, newValue⟩] }

/-- The address of the connected account, `""` when there is none. -/
def ownerOf (s : AppState) : String :=
  match s.account with
  | some a => a.address
  | none => ""

/-- The type test the specification words: the object's type is the deed type. -/
def hasDeedType (PACKAGE_ID : String) (obj : SuiObject) : Bool :=
  decide (typeOf obj = some (deedType PACKAGE_ID))

/-- Does the string read as a non-negative integer: one or more decimal digits? -/
def parsesAsNonNegInt (v : String) : Bool :=
  !v.data.isEmpty && v.data.all Char.isDigit

/-- The common shape of the four handlers, over the guard, the call builder and
the success message of the intent. -/
def handlerShape (env : Env) (s : AppState) (i : Intent) : List Event :=
  if validationPasses env s i then
    [.setIsLoading true, .setFeedback ""] ++
    (match buildTx env s i with
     | .error m => [.setFeedback ("Error: " ++ m), .setIsLoading false]
     | .ok tx =>
       .signAndExecuteTransactionBlock tx ::
       (match env.signOutcome tx with
        | .error m => [.setFeedback ("Error: " ++ m), .setIsLoading false]
        | .ok _ =>
          [.setFeedback (successMessage i)] ++ fetchDeedsStart env s ++
          [.setIsLoading false] ++ fetchDeedsResume env s))
  else [.setFeedback (rejectionMessage s i)]

/-! ## A sample environment

The theorems below hold for every `Env`.  To run the handlers on concrete
inputs the parameters have to be given values; the `u64` encoder of the sample
follows what the transaction builder does with a string, `BigInt(value)`
followed by the range check `0 ≤ value ≤ 2^64 - 1`. -/

/-- The white space `BigInt` skips at both ends of a string. -/
def isJsWhiteSpace (c : Char) : Bool :=
  let n := c.toNat
  n = 9 || n = 10 || n = 11 || n = 12 || n = 13 || n = 32 || n = 160 || n = 5760 ||
    (8192 ≤ n && n ≤ 8202) || n = 8232 || n = 8233 || n = 8239 || n = 8287 ||
    n = 12288 || n = 65279

/-- The value of a digit character, hexadecimal letters included. -/
def digitValue (c : Char) : Option Nat :=
  let n := c.toNat
  if 48 ≤ n ∧ n ≤ 57 then some (n - 48)
  else if 97 ≤ n ∧ n ≤ 102 then some (n - 87)
  else if 65 ≤ n ∧ n ≤ 70 then some (n - 55)
  else none

/-- The number written by the digits in the given base, starting from `acc`;
`none` when a character is not a digit of the base. -/
def digitsFrom (base : Nat) (acc : Nat) : List Char → Option Nat
  | [] => some acc
  | c :: cs =>
    match digitValue c with
    | none => none
    | some d => if d < base then digitsFrom base (acc * base + d) cs else none

/-- One or more digits of the base. -/
def parseDigits (base : Nat) (cs : List Char) : Option Nat :=
  if cs.isEmpty then none else digitsFrom base 0 cs

/-- `BigInt(v)` for a string `v`: white space is trimmed, the empty string is
0, then an optionally signed decimal literal or an unsigned literal with prefix
`0x`, `0o` or `0b`; `none` stands for the `SyntaxError`. -/
def stringToBigInt (v : String) : Option Int :=
  match ((v.data.dropWhile isJsWhiteSpace).reverse.dropWhile isJsWhiteSpace).reverse with
  | [] => some 0
  | '0' :: 'x' :: ds => (parseDigits 16 ds).map Int.ofNat
  | '0' :: 'X' :: ds => (parseDigits 16 ds).map Int.ofNat
  | '0' :: 'o' :: ds => (parseDigits 8 ds).map Int.ofNat
  | '0' :: 'O' :: ds => (parseDigits 8 ds).map Int.ofNat
  | '0' :: 'b' :: ds => (parseDigits 2 ds).map Int.ofNat
  | '0' :: 'B' :: ds => (parseDigits 2 ds).map Int.ofNat
  | '+' :: ds => (parseDigits 10 ds).map Int.ofNat
  | '-' :: ds => (parseDigits 10 ds).map (fun n => - Int.ofNat n)
  | ds => (parseDigits 10 ds).map Int.ofNat

/-- The sample encoders: `tx.pure.u64` throws when `BigInt` does or when the
value is out of range; the other constructors accept the value. -/
def sampleEncoderThrows : ArgKind → String → Option String
  | .u64, v =>
    match stringToBigInt v with
    | none => some ("Cannot convert " ++ v ++ " to a BigInt")
    | some n =>
      if n < 0 ∨ n > 18446744073709551615 then
        some ("Invalid u64 value: " ++ toString n ++
          ". Expected value in range 0-18446744073709551615")
      else none
  | _, _ => none

/-- Three owned objects: a deed, a coin, and an escrow object of another
package whose type has the deed type as its type argument. -/
def sampleOwned : List SuiObject :=
  [ ⟨some ⟨"0xd1", some ⟨some "0xabc::deed::RealEstateDeed"⟩⟩⟩,
    ⟨some ⟨"0xc1", some ⟨some "0x2::coin::Coin<0x2::sui::SUI>"⟩⟩⟩,
    ⟨some ⟨"0xe1", some ⟨some "0xdef::escrow::Escrow<0xabc::deed::RealEstateDeed>"⟩⟩⟩ ]

/-- The wallet resolves every call and the ledger answers with `sampleOwned`. -/
def sampleEnv : Env where
  PACKAGE_ID := "0xabc"
  encoderThrows := sampleEncoderThrows
  nullAccountMessage := "Cannot read properties of undefined (reading 'address')"
  signOutcome := fun _ => .ok ()
  queryOutcome := fun _ => .ok sampleOwned

/-- As `sampleEnv`, with a wallet call that throws. -/
def failingEnv : Env :=
  { sampleEnv with signOutcome := fun _ => .error "Failed to fetch" }

/-- As `sampleEnv`, with `REACT_APP_PACKAGE_ID` unset. -/
def unsetEnv : Env :=
  { sampleEnv with PACKAGE_ID := "" }

/-- A connected session with the mint form filled in, no operation in flight. -/
def idleState : AppState where
  address := "12 Main St"
  titleStatus := "clear"
  propertyValue := "250000"
  feedback := ""
  isLoading := false
  deeds := []
  recipientAddress := "0xb0b"
  connected := true
  account := some ⟨"0xa11ce"⟩

/-- As `idleState`, while an operation is in flight. -/
def busyState : AppState :=
  { idleState with isLoading := true }

/-- A disconnected session that still shows one deed. -/
def offlineState : AppState :=
  { idleState with connected := false, account := none,
                   deeds := [⟨some ⟨"0xd1", some ⟨some "0xabc::deed::RealEstateDeed"⟩⟩⟩] }

/-- The values a render sees after the wallet session has changed. -/
def withSession (s : AppState) (connected : Bool) (account : Option Account) : AppState :=
  { s with connected := connected, account := account }

/-- The state after the wallet has disconnected from `offlineState`'s
predecessor and the connection effect has run. -/
def clearedState : AppState :=
  exec offlineState (connectionEffect sampleEnv offlineState)

/-- The render after the wallet has connected again from `clearedState`. -/
def reconnectedState : AppState :=
  withSession clearedState true (some ⟨"0xa11ce"⟩)

/-- Which of the four intents it is. -/
inductive IntentKind where
  | mint
  | transfer
  | updateStatus
  | updateValue
  deriving DecidableEq, Repr

/-- The kind of an intent, its arguments forgotten. -/
def Intent.kind : Intent → IntentKind
  | .mintDeed => .mint
  | .transferDeed _ => .transfer
  | .updateTitleStatus _ _ => .updateStatus
  | .updatePropertyValue _ _ => .updateValue

/-! ## Basic facts about effect lists -/

theorem exec_nil (s : AppState) : exec s [] = s := rfl

theorem exec_cons (s : AppState) (e : Event) (evs : List Event) :
    exec s (e :: evs) = exec (applyEvent s e) evs := rfl

theorem exec_append (s : AppState) (xs ys : List Event) :
    exec s (xs ++ ys) = exec (exec s xs) ys := by
  simp [exec, List.foldl_append]

theorem handle_eq_handlerShape (env : Env) (s : AppState) (i : Intent) :
    handle env s i = handlerShape env s i := by
  cases i with
  | mintDeed =>
    cases hc : s.connected <;> by_cases hp : env.PACKAGE_ID = "" <;>
      simp [handle, handlerShape, mintDeed, validationPasses, buildTx, successMessage,
        rejectionMessage, hc, hp]
  | transferDeed deedId =>
    cases hc : s.connected <;> by_cases hp : s.recipientAddress = "" <;>
      simp [handle, handlerShape, transferDeed, validationPasses, buildTx, successMessage,
        rejectionMessage, hc, hp]
  | updateTitleStatus deedId newStatus =>
    cases hc : s.connected <;>
      simp [handle, handlerShape, updateTitleStatus, validationPasses, buildTx, successMessage,
        rejectionMessage, hc]
  | updatePropertyValue deedId newValue =>
    cases hc : s.connected <;>
      simp [handle, handlerShape, updatePropertyValue, validationPasses, buildTx, successMessage,
        rejectionMessage, hc]

theorem walletCalls_append (xs ys : List Event) :
    walletCalls (xs ++ ys) = walletCalls xs ++ walletCalls ys := by
  induction xs with
  | nil => rfl
  | cons e es ih => cases e <;> simp [walletCalls, ih]

theorem ledgerQueries_append (xs ys : List Event) :
    ledgerQueries (xs ++ ys) = ledgerQueries xs ++ ledgerQueries ys := by
  induction xs with
  | nil => rfl
  | cons e es ih => cases e <;> simp [ledgerQueries, ih]

theorem mem_fetchDeedsStart {env : Env} {s : AppState} {e : Event}
    (h : e ∈ fetchDeedsStart env s) : e = .fetchDeeds ∨ ∃ o, e = .getOwnedObjects o := by
  unfold fetchDeedsStart at h
  cases hc : s.connected <;> cases ha : s.account <;> simp [hc, ha] at h
  · exact Or.inl h
  · exact Or.inl h
  · exact Or.inl h
  · rcases h with h | h
    · exact Or.inl h
    · exact Or.inr ⟨_, h⟩

theorem mem_fetchDeedsResume {env : Env} {s : AppState} {e : Event}
    (h : e ∈ fetchDeedsResume env s) :
    (∃ ds, e = .setDeeds ds) ∨ e = .setFeedback "Error fetching deeds. Please try again." := by
  unfold fetchDeedsResume at h
  cases hc : s.connected <;> cases ha : s.account <;> simp [hc, ha] at h
  rename_i a
  cases hq : env.queryOutcome a.address <;> simp [hq] at h <;> simp [h]

theorem walletCalls_fetchDeedsStart (env : Env) (s : AppState) :
    walletCalls (fetchDeedsStart env s) = [] := by
  unfold fetchDeedsStart
  cases hc : s.connected <;> cases ha : s.account <;> simp [walletCalls]

theorem walletCalls_fetchDeedsResume (env : Env) (s : AppState) :
    walletCalls (fetchDeedsResume env s) = [] := by
  unfold fetchDeedsResume
  cases hc : s.connected <;> cases ha : s.account <;> simp [walletCalls]
  rename_i a
  cases hq : env.queryOutcome a.address <;> simp [walletCalls]

theorem ledgerQueries_fetchDeedsResume (env : Env) (s : AppState) :
    ledgerQueries (fetchDeedsResume env s) = [] := by
  unfold fetchDeedsResume
  cases hc : s.connected <;> cases ha : s.account <;> simp [ledgerQueries]
  rename_i a
  cases hq : env.queryOutcome a.address <;> simp [ledgerQueries]

theorem exec_fetchDeedsStart (env : Env) (s t : AppState) :
    exec t (fetchDeedsStart env s) = t := by
  unfold fetchDeedsStart
  cases hc : s.connected <;> cases ha : s.account <;> simp [exec, applyEvent]

theorem exec_fetchDeedsResume_isLoading (env : Env) (s t : AppState) :
    (exec t (fetchDeedsResume env s)).isLoading = t.isLoading := by
  unfold fetchDeedsResume
  cases hc : s.connected <;> cases ha : s.account <;> simp [exec, applyEvent]
  rename_i a
  cases hq : env.queryOutcome a.address <;> simp [applyEvent]

theorem exec_fetchDeedsResume_deeds (env : Env) (s t u : AppState) (h : t.deeds = u.deeds) :
    (exec t (fetchDeedsResume env s)).deeds = (exec u (fetchDeedsResume env s)).deeds := by
  unfold fetchDeedsResume
  cases hc : s.connected <;> cases ha : s.account <;> simp [exec, applyEvent, h]
  rename_i a
  cases hq : env.queryOutcome a.address <;> simp [applyEvent, h]

theorem isLoading_after_handle (env : Env) (s : AppState) (i : Intent) :
    (exec s (handle env s i)).isLoading
      = (if validationPasses env s i then false else s.isLoading) := by
  rw [handle_eq_handlerShape]
  unfold handlerShape
  cases hv : validationPasses env s i
  · simp [exec, applyEvent]
  · cases hb : buildTx env s i with
    | error m => simp [exec, applyEvent]
    | ok tx =>
      cases hs : env.signOutcome tx with
      | error m => simp [exec, applyEvent, hs]
      | ok u =>
        simp only [hs, if_true, List.cons_append, List.nil_append, exec_cons, List.append_assoc,
          exec_append, exec_fetchDeedsStart, exec_fetchDeedsResume_isLoading]
        simp [applyEvent]

theorem handle_of_rejected {env : Env} {s : AppState} {i : Intent}
    (hv : validationPasses env s i = false) :
    handle env s i = [.setFeedback (rejectionMessage s i)] := by
  rw [handle_eq_handlerShape]
  simp [handlerShape, hv]

theorem handle_of_build_error {env : Env} {s : AppState} {i : Intent} {m : String}
    (hv : validationPasses env s i = true) (hb : buildTx env s i = .error m) :
    handle env s i =
      [.setIsLoading true, .setFeedback "", .setFeedback ("Error: " ++ m),
        .setIsLoading false] := by
  rw [handle_eq_handlerShape]
  simp [handlerShape, hv, hb]

theorem handle_of_sign_error {env : Env} {s : AppState} {i : Intent} {tx : MoveCall}
    {m : String} (hv : validationPasses env s i = true) (hb : buildTx env s i = .ok tx)
    (hs : env.signOutcome tx = .error m) :
    handle env s i =
      [.setIsLoading true, .setFeedback "", .signAndExecuteTransactionBlock tx,
        .setFeedback ("Error: " ++ m), .setIsLoading false] := by
  rw [handle_eq_handlerShape]
  simp [handlerShape, hv, hb, hs]

theorem handle_of_sign_ok {env : Env} {s : AppState} {i : Intent} {tx : MoveCall}
    (hv : validationPasses env s i = true) (hb : buildTx env s i = .ok tx)
    (hs : env.signOutcome tx = .ok ()) :
    handle env s i =
      [.setIsLoading true, .setFeedback "", .signAndExecuteTransactionBlock tx,
        .setFeedback (successMessage i)] ++ fetchDeedsStart env s ++
        [.setIsLoading false] ++ fetchDeedsResume env s := by
  rw [handle_eq_handlerShape]
  simp [handlerShape, hv, hb, hs]

theorem fetchDeedsStart_eq_cons (env : Env) (s : AppState) :
    fetchDeedsStart env s = .fetchDeeds :: (fetchDeedsStart env s).tail := rfl

theorem fetchDeeds_not_mem_tail (env : Env) (s : AppState) :
    Event.fetchDeeds ∉ (fetchDeedsStart env s).tail := by
  unfold fetchDeedsStart
  cases hc : s.connected <;> cases ha : s.account <;> simp

theorem setIsLoading_not_mem_tail (env : Env) (s : AppState) (b : Bool) :
    Event.setIsLoading b ∉ (fetchDeedsStart env s).tail := by
  unfold fetchDeedsStart
  cases hc : s.connected <;> cases ha : s.account <;> simp

theorem fetchDeeds_not_mem_resume (env : Env) (s : AppState) :
    Event.fetchDeeds ∉ fetchDeedsResume env s := by
  intro h
  rcases mem_fetchDeedsResume h with ⟨ds, h⟩ | h <;> cases h

theorem setDeeds_not_mem_start (env : Env) (s : AppState) (ds : List SuiObject) :
    Event.setDeeds ds ∉ fetchDeedsStart env s := by
  intro h
  rcases mem_fetchDeedsStart h with h | ⟨o, h⟩ <;> cases h

theorem confirmed_cases (env : Env) (s : AppState) (i : Intent) :
    (confirmed env s i = false ∧
        (validationPasses env s i = false ∨
          (validationPasses env s i = true ∧ ∃ m, buildTx env s i = .error m) ∨
          (validationPasses env s i = true ∧
            ∃ tx m, buildTx env s i = .ok tx ∧ env.signOutcome tx = .error m))) ∨
      (confirmed env s i = true ∧ validationPasses env s i = true ∧
        ∃ tx, buildTx env s i = .ok tx ∧ env.signOutcome tx = .ok ()) := by
  unfold confirmed
  cases hv : validationPasses env s i
  · simp
  · cases hb : buildTx env s i with
    | error m => simp
    | ok tx =>
      cases hs : env.signOutcome tx with
      | error m => simp [hs]
      | ok u => simp [hs]

/-- C10: once a handler has finished, `isLoading` is false whenever its guards
passed, whether building the call or the wallet call succeeded or threw; when
the guards reject the intent, `isLoading` is left as it was and is never
written. -/
theorem C10_returns_to_idle (env : Env) (s : AppState) (i : Intent) :
    (exec s (handle env s i)).isLoading
        = (if validationPasses env s i then false else s.isLoading) ∧
      (validationPasses env s i = false → ∀ b, Event.setIsLoading b ∉ handle env s i) := by
  refine ⟨isLoading_after_handle env s i, ?_⟩
  intro hv b
  rw [handle_of_rejected hv]
  simp

/-- C3: when the guards pass, the call descriptor builds and the wallet call
resolves, `fetchDeeds` is invoked exactly once, and the invocation comes before
`isLoading` is reset: at the invocation the flag is still true, no
`setIsLoading(false)` has happened yet, and one happens afterwards, leaving the
flag false. -/
theorem C3_refresh_once_before_idle (env : Env) (s : AppState) (i : Intent) (tx : MoveCall)
    (hv : validationPasses env s i = true) (hb : buildTx env s i = .ok tx)
    (hs : env.signOutcome tx = .ok ()) :
    (handle env s i).count Event.fetchDeeds = 1 ∧
      ∃ pre post, handle env s i = pre ++ Event.fetchDeeds :: post ∧
        Event.fetchDeeds ∉ pre ∧ Event.fetchDeeds ∉ post ∧
        walletCalls pre = [tx] ∧
        Event.setIsLoading false ∉ pre ∧ (exec s pre).isLoading = true ∧
        Event.setIsLoading false ∈ post ∧
        (exec s (handle env s i)).isLoading = false := by
  have hshape := handle_of_sign_ok hv hb hs
  have hdec : handle env s i =
      [.setIsLoading true, .setFeedback "", .signAndExecuteTransactionBlock tx,
        .setFeedback (successMessage i)] ++ Event.fetchDeeds ::
        ((fetchDeedsStart env s).tail ++ [.setIsLoading false] ++ fetchDeedsResume env s) := by
    rw [hshape]
    conv_lhs => rw [fetchDeedsStart_eq_cons]
    simp
  have hpre : Event.fetchDeeds ∉
      [Event.setIsLoading true, .setFeedback "", .signAndExecuteTransactionBlock tx,
        .setFeedback (successMessage i)] := by simp
  have hpost : Event.fetchDeeds ∉
      (fetchDeedsStart env s).tail ++ [Event.setIsLoading false] ++ fetchDeedsResume env s := by
    simp [fetchDeeds_not_mem_tail, fetchDeeds_not_mem_resume]
  refine ⟨?_, _, _, hdec, hpre, hpost, ?_, ?_, ?_, ?_, ?_⟩
  · rw [hdec, List.count_append, List.count_cons_self, List.count_eq_zero.mpr hpre,
      List.count_eq_zero.mpr hpost]
  · simp [walletCalls]
  · simp
  · simp [exec, applyEvent]
  · simp
  · have := isLoading_after_handle env s i
    simpa [hv] using this

/-- C3 at a concrete input: minting from `idleState` with a wallet that
resolves. -/
theorem C3_refresh_once_before_idle_witness :
    (handle sampleEnv idleState .mintDeed).count Event.fetchDeeds = 1 ∧
      ∃ pre post, handle sampleEnv idleState .mintDeed = pre ++ Event.fetchDeeds :: post ∧
        Event.fetchDeeds ∉ pre ∧ Event.fetchDeeds ∉ post ∧
        walletCalls pre = [specCall "0xabc" "0xa11ce" idleState .mintDeed] ∧
        Event.setIsLoading false ∉ pre ∧ (exec idleState pre).isLoading = true ∧
        Event.setIsLoading false ∈ post ∧
        (exec idleState (handle sampleEnv idleState .mintDeed)).isLoading = false :=
  C3_refresh_once_before_idle sampleEnv idleState .mintDeed
    (specCall "0xabc" "0xa11ce" idleState .mintDeed) (by decide) rfl rfl

/-- C7: a handler never writes the deeds cache itself.  Every `setDeeds` in
its effects is the one of `fetchDeeds`, run after a confirmed submission; the
effects are the handler's own (free of `setDeeds`) followed, when the
submission is confirmed, by the resumed `fetchDeeds`.  The cache afterwards is
what `fetchDeeds` leaves when the submission is confirmed and the old cache
otherwise: in particular it is unchanged when the guards reject the intent,
when building the call throws and when the wallet call throws. -/
theorem C7_no_optimistic_writes (env : Env) (s : AppState) (i : Intent) :
    (∀ ds, Event.setDeeds ds ∈ handle env s i →
        confirmed env s i = true ∧ Event.setDeeds ds ∈ fetchDeedsResume env s) ∧
      (∃ own, (∀ ds, Event.setDeeds ds ∉ own) ∧
        handle env s i = own ++ (if confirmed env s i then fetchDeedsResume env s else [])) ∧
      (exec s (handle env s i)).deeds
        = (if confirmed env s i then (exec s (fetchDeeds env s)).deeds else s.deeds) ∧
      (confirmed env s i = false → (exec s (handle env s i)).deeds = s.deeds) := by
  rcases confirmed_cases env s i with ⟨hc, hv | ⟨hv, m, hb⟩ | ⟨hv, tx, m, hb, hs⟩⟩ |
    ⟨hc, hv, tx, hb, hs⟩
  · have h := handle_of_rejected hv
    refine ⟨?_, ⟨handle env s i, ?_, ?_⟩, ?_, ?_⟩ <;> simp [h, hc, exec, applyEvent]
  · have h := handle_of_build_error hv hb
    refine ⟨?_, ⟨handle env s i, ?_, ?_⟩, ?_, ?_⟩ <;> simp [h, hc, exec, applyEvent]
  · have h := handle_of_sign_error hv hb hs
    refine ⟨?_, ⟨handle env s i, ?_, ?_⟩, ?_, ?_⟩ <;> simp [h, hc, exec, applyEvent]
  · have h := handle_of_sign_ok hv hb hs
    have hdeeds : (exec s (handle env s i)).deeds = (exec s (fetchDeeds env s)).deeds := by
      rw [h, fetchDeeds]
      simp only [exec_append, exec_fetchDeedsStart]
      apply exec_fetchDeedsResume_deeds
      simp [exec, applyEvent]
    refine ⟨?_, ⟨[.setIsLoading true, .setFeedback "", .signAndExecuteTransactionBlock tx,
        .setFeedback (successMessage i)] ++ fetchDeedsStart env s ++ [.setIsLoading false],
        ?_, ?_⟩, ?_, ?_⟩
    · intro ds hds
      refine ⟨hc, ?_⟩
      rw [h] at hds
      simp only [List.mem_append, List.mem_cons, List.mem_singleton, List.not_mem_nil,
        or_false] at hds
      rcases hds with ((hds | hds) | hds) | hds
      · rcases hds with hds | hds | hds | hds <;> cases hds
      · exact absurd hds (setDeeds_not_mem_start env s ds)
      · cases hds
      · exact hds
    · intro ds hds
      simp only [List.mem_append, List.mem_cons, List.mem_singleton, List.not_mem_nil,
        or_false] at hds
      rcases hds with (hds | hds) | hds
      · rcases hds with hds | hds | hds | hds <;> cases hds
      · exact absurd hds (setDeeds_not_mem_start env s ds)
      · cases hds
    · simp [h, hc]
    · simp [hc, hdeeds]
    · simp [hc]

/-- C2, as amended: when the guards pass, the call descriptor builds and the
wallet call throws with message `m`, the handler publishes `Error: m`, resets
`isLoading`, and does not invoke `fetchDeeds`: no ledger query is issued and the
deeds cache is unchanged. -/
theorem C2_failure_publishes_error_without_refresh (env : Env) (s : AppState) (i : Intent)
    (tx : MoveCall) (m : String)
    (hv : validationPasses env s i = true) (hb : buildTx env s i = .ok tx)
    (hs : env.signOutcome tx = .error m) :
    handle env s i =
        [.setIsLoading true, .setFeedback "", .signAndExecuteTransactionBlock tx,
          .setFeedback ("Error: " ++ m), .setIsLoading false] ∧
      (exec s (handle env s i)).feedback = "Error: " ++ m ∧
      Event.fetchDeeds ∉ handle env s i ∧
      ledgerQueries (handle env s i) = [] ∧
      (exec s (handle env s i)).deeds = s.deeds ∧
      (exec s (handle env s i)).isLoading = false := by
  have h := handle_of_sign_error hv hb hs
  refine ⟨h, ?_, ?_, ?_, ?_, ?_⟩ <;> simp [h, exec, applyEvent, ledgerQueries]

/-- C2 at a concrete input: a transfer whose wallet call throws. -/
theorem C2_failure_publishes_error_without_refresh_witness :
    handle failingEnv idleState (.transferDeed "0xd1") =
        [.setIsLoading true, .setFeedback "",
          .signAndExecuteTransactionBlock
            (specCall "0xabc" "0xa11ce" idleState (.transferDeed "0xd1")),
          .setFeedback ("Error: " ++ "Failed to fetch"), .setIsLoading false] ∧
      (exec idleState (handle failingEnv idleState (.transferDeed "0xd1"))).feedback
        = "Error: " ++ "Failed to fetch" ∧
      Event.fetchDeeds ∉ handle failingEnv idleState (.transferDeed "0xd1") ∧
      ledgerQueries (handle failingEnv idleState (.transferDeed "0xd1")) = [] ∧
      (exec idleState (handle failingEnv idleState (.transferDeed "0xd1"))).deeds
        = idleState.deeds ∧
      (exec idleState (handle failingEnv idleState (.transferDeed "0xd1"))).isLoading = false :=
  C2_failure_publishes_error_without_refresh failingEnv idleState (.transferDeed "0xd1")
    (specCall "0xabc" "0xa11ce" idleState (.transferDeed "0xd1")) "Failed to fetch"
    (by decide) rfl rfl

/-- C2 fails as stated: the transfer from `idleState` passes the guards and its
wallet call throws, yet `fetchDeeds` is not invoked and no ledger query is
issued. -/
theorem C2_counterexample :
    validationPasses failingEnv idleState (.transferDeed "0xd1") = true ∧
      walletCalls (handle failingEnv idleState (.transferDeed "0xd1"))
        = [specCall "0xabc" "0xa11ce" idleState (.transferDeed "0xd1")] ∧
      failingEnv.signOutcome (specCall "0xabc" "0xa11ce" idleState (.transferDeed "0xd1"))
        = .error "Failed to fetch" ∧
      (exec idleState (handle failingEnv idleState (.transferDeed "0xd1"))).feedback
        = "Error: Failed to fetch" ∧
      Event.fetchDeeds ∉ handle failingEnv idleState (.transferDeed "0xd1") ∧
      ledgerQueries (handle failingEnv idleState (.transferDeed "0xd1")) = [] := by
  refine ⟨by decide, by decide, rfl, by decide, by decide, by decide⟩

/-- C1, as amended: no handler consults `isLoading`.  Invoked while an
operation is in flight, a handler performs the same effects as it would with
the flag false.  If its own guards reject the intent it publishes their
message, issues no wallet call and no ledger query, and leaves `isLoading` and
the deeds cache unchanged; if the guards pass and the call descriptor builds,
the wallet call is issued. -/
theorem C1_busy_flag_not_consulted (env : Env) (s : AppState) (i : Intent)
    (h : s.isLoading = true) :
    handle env s i = handle env { s with isLoading := false } i ∧
      (validationPasses env s i = false →
        walletCalls (handle env s i) = [] ∧ ledgerQueries (handle env s i) = [] ∧
        (exec s (handle env s i)).feedback = rejectionMessage s i ∧
        (exec s (handle env s i)).isLoading = true ∧
        (exec s (handle env s i)).deeds = s.deeds) ∧
      (validationPasses env s i = true → ∀ tx, buildTx env s i = .ok tx →
        walletCalls (handle env s i) = [tx]) := by
  refine ⟨?_, ?_, ?_⟩
  · cases i <;> rfl
  · intro hv
    rw [handle_of_rejected hv]
    simp [walletCalls, ledgerQueries, exec, applyEvent, h]
  · intro hv tx hb
    cases hs : env.signOutcome tx with
    | error m =>
      rw [handle_of_sign_error hv hb hs]
      simp [walletCalls]
    | ok u =>
      rw [handle_of_sign_ok hv hb hs]
      simp only [walletCalls_append, walletCalls_fetchDeedsStart, walletCalls_fetchDeedsResume]
      simp [walletCalls]

/-- C1 at a concrete input: a transfer issued from `busyState`. -/
theorem C1_busy_flag_not_consulted_witness :
    handle sampleEnv busyState (.transferDeed "0xd1")
        = handle sampleEnv { busyState with isLoading := false } (.transferDeed "0xd1") ∧
      (validationPasses sampleEnv busyState (.transferDeed "0xd1") = false →
        walletCalls (handle sampleEnv busyState (.transferDeed "0xd1")) = [] ∧
        ledgerQueries (handle sampleEnv busyState (.transferDeed "0xd1")) = [] ∧
        (exec busyState (handle sampleEnv busyState (.transferDeed "0xd1"))).feedback
          = rejectionMessage busyState (.transferDeed "0xd1") ∧
        (exec busyState (handle sampleEnv busyState (.transferDeed "0xd1"))).isLoading = true ∧
        (exec busyState (handle sampleEnv busyState (.transferDeed "0xd1"))).deeds
          = busyState.deeds) ∧
      (validationPasses sampleEnv busyState (.transferDeed "0xd1") = true →
        ∀ tx, buildTx sampleEnv busyState (.transferDeed "0xd1") = .ok tx →
          walletCalls (handle sampleEnv busyState (.transferDeed "0xd1")) = [tx]) :=
  C1_busy_flag_not_consulted sampleEnv busyState (.transferDeed "0xd1") (by decide)

/-- C1 fails as stated: with `isLoading = true`, a transfer is not rejected.
The wallet call and a ledger query are issued, the deeds cache is replaced and
`isLoading` is reset to false. -/
theorem C1_counterexample :
    busyState.isLoading = true ∧
      walletCalls (handle sampleEnv busyState (.transferDeed "0xd1"))
        = [⟨"0xabc::deed::transfer_deed", [⟨.object, "0xd1"⟩, ⟨.address, "0xb0b"⟩]⟩] ∧
      ledgerQueries (handle sampleEnv busyState (.transferDeed "0xd1")) = ["0xa11ce"] ∧
      (exec busyState (handle sampleEnv busyState (.transferDeed "0xd1"))).isLoading = false ∧
      (exec busyState (handle sampleEnv busyState (.transferDeed "0xd1"))).deeds
        ≠ busyState.deeds := by
  refine ⟨by decide, by decide, by decide, by decide, by decide⟩

/-- C4, as amended: with `PACKAGE_ID` empty, `mintDeed` publishes the
`PACKAGE_ID is not set` message when the wallet is connected and the
connect-your-wallet message when it is not; either way that is its only
effect: no wallet call, no ledger query, `isLoading` and the deeds cache
unchanged. -/
theorem C4_mint_with_empty_package_id (env : Env) (s : AppState) (h : env.PACKAGE_ID = "") :
    mintDeed env s =
        [.setFeedback (if s.connected
          then "PACKAGE_ID is not set. Please check your environment variables."
          else "Please connect your wallet first")] ∧
      walletCalls (mintDeed env s) = [] ∧
      ledgerQueries (mintDeed env s) = [] ∧
      (exec s (mintDeed env s)).isLoading = s.isLoading ∧
      (exec s (mintDeed env s)).deeds = s.deeds := by
  have hm : mintDeed env s =
      [.setFeedback (if s.connected
        then "PACKAGE_ID is not set. Please check your environment variables."
        else "Please connect your wallet first")] := by
    cases hc : s.connected <;> simp [mintDeed, hc, h]
  refine ⟨hm, ?_, ?_, ?_, ?_⟩ <;> simp [hm, walletCalls, ledgerQueries, exec, applyEvent]

/-- C4 at a concrete input: minting from `idleState` with `PACKAGE_ID` unset. -/
theorem C4_mint_with_empty_package_id_witness :
    mintDeed unsetEnv idleState =
        [.setFeedback (if idleState.connected
          then "PACKAGE_ID is not set. Please check your environment variables."
          else "Please connect your wallet first")] ∧
      walletCalls (mintDeed unsetEnv idleState) = [] ∧
      ledgerQueries (mintDeed unsetEnv idleState) = [] ∧
      (exec idleState (mintDeed unsetEnv idleState)).isLoading = idleState.isLoading ∧
      (exec idleState (mintDeed unsetEnv idleState)).deeds = idleState.deeds :=
  C4_mint_with_empty_package_id unsetEnv idleState rfl

/-- C4 fails as stated: in a disconnected state with `PACKAGE_ID` empty,
`mintDeed` publishes the connect-your-wallet message, not the
`PACKAGE_ID is not set` one. -/
theorem C4_counterexample :
    unsetEnv.PACKAGE_ID = "" ∧
      (exec offlineState (mintDeed unsetEnv offlineState)).feedback
        = "Please connect your wallet first" ∧
      (exec offlineState (mintDeed unsetEnv offlineState)).feedback
        ≠ "PACKAGE_ID is not set. Please check your environment variables." := by
  refine ⟨rfl, by decide, by decide⟩

theorem includesChars_iff (s p : List Char) : includesChars s p = true ↔ p <:+: s := by
  induction s with
  | nil => simp [includesChars]
  | cons c cs ih =>
    rw [List.infix_cons_iff, ← ih]
    simp [includesChars]

theorem isDeed_iff (P : String) (obj : SuiObject) :
    isDeed P obj = true ↔ ∃ t, typeOf obj = some t ∧ (deedType P).data <:+: t.data := by
  unfold isDeed
  cases h : typeOf obj with
  | none => simp
  | some t => simp [jsIncludes, includesChars_iff]

theorem fetchDeeds_of_query_ok {env : Env} {s : AppState} {a : Account}
    {data : List SuiObject} (hc : s.connected = true) (ha : s.account = some a)
    (hq : env.queryOutcome a.address = .ok data) :
    fetchDeeds env s =
      [.fetchDeeds, .getOwnedObjects a.address,
        .setDeeds (data.filter (isDeed env.PACKAGE_ID))] := by
  simp [fetchDeeds, fetchDeedsStart, fetchDeedsResume, hc, ha, hq]

theorem fetchDeeds_of_query_error {env : Env} {s : AppState} {a : Account} {m : String}
    (hc : s.connected = true) (ha : s.account = some a)
    (hq : env.queryOutcome a.address = .error m) :
    fetchDeeds env s =
      [.fetchDeeds, .getOwnedObjects a.address,
        .setFeedback "Error fetching deeds. Please try again."] := by
  simp [fetchDeeds, fetchDeedsStart, fetchDeedsResume, hc, ha, hq]

/-- C6, as amended: in a connected state, when the owned-objects query
succeeds, `fetchDeeds` replaces the cache with the returned objects, in query
order, whose type string contains `PACKAGE_ID::deed::RealEstateDeed` as a
substring.  Objects of exactly that type are kept, objects without a type are
dropped, and the new cache does not depend on the previous one. -/
theorem C6_type_filtered_replacement (env : Env) (s : AppState) (a : Account)
    (data : List SuiObject) (hc : s.connected = true) (ha : s.account = some a)
    (hq : env.queryOutcome a.address = .ok data) :
    fetchDeeds env s =
        [.fetchDeeds, .getOwnedObjects a.address,
          .setDeeds (data.filter (isDeed env.PACKAGE_ID))] ∧
      (exec s (fetchDeeds env s)).deeds = data.filter (isDeed env.PACKAGE_ID) ∧
      ((exec s (fetchDeeds env s)).deeds).Sublist data ∧
      (∀ obj, obj ∈ (exec s (fetchDeeds env s)).deeds ↔
        obj ∈ data ∧ ∃ t, typeOf obj = some t ∧ (deedType env.PACKAGE_ID).data <:+: t.data) ∧
      (∀ obj ∈ data, hasDeedType env.PACKAGE_ID obj = true →
        obj ∈ (exec s (fetchDeeds env s)).deeds) ∧
      (∀ s' : AppState, s'.connected = true → s'.account = some a →
        (exec s' (fetchDeeds env s')).deeds = (exec s (fetchDeeds env s)).deeds) := by
  have hf := fetchDeeds_of_query_ok hc ha hq
  have hd : (exec s (fetchDeeds env s)).deeds = data.filter (isDeed env.PACKAGE_ID) := by
    simp [hf, exec, applyEvent]
  refine ⟨hf, hd, ?_, ?_, ?_, ?_⟩
  · rw [hd]
    exact List.filter_sublist data
  · intro obj
    rw [hd, List.mem_filter, isDeed_iff]
  · intro obj hobj ht
    rw [hd, List.mem_filter, isDeed_iff]
    refine ⟨hobj, deedType env.PACKAGE_ID, ?_, List.infix_refl _⟩
    simpa [hasDeedType] using ht
  · intro s' hc' ha'
    rw [hd, fetchDeeds_of_query_ok hc' ha' hq]
    simp [exec, applyEvent]

/-- C6 at a concrete input: the refresh from `idleState` against `sampleOwned`. -/
theorem C6_type_filtered_replacement_witness :
    fetchDeeds sampleEnv idleState =
        [.fetchDeeds, .getOwnedObjects "0xa11ce",
          .setDeeds (sampleOwned.filter (isDeed "0xabc"))] ∧
      (exec idleState (fetchDeeds sampleEnv idleState)).deeds
        = sampleOwned.filter (isDeed "0xabc") ∧
      ((exec idleState (fetchDeeds sampleEnv idleState)).deeds).Sublist sampleOwned ∧
      (∀ obj, obj ∈ (exec idleState (fetchDeeds sampleEnv idleState)).deeds ↔
        obj ∈ sampleOwned ∧ ∃ t, typeOf obj = some t ∧ (deedType "0xabc").data <:+: t.data) ∧
      (∀ obj ∈ sampleOwned, hasDeedType "0xabc" obj = true →
        obj ∈ (exec idleState (fetchDeeds sampleEnv idleState)).deeds) ∧
      (∀ s' : AppState, s'.connected = true → s'.account = some ⟨"0xa11ce"⟩ →
        (exec s' (fetchDeeds sampleEnv s')).deeds
          = (exec idleState (fetchDeeds sampleEnv idleState)).deeds) :=
  C6_type_filtered_replacement sampleEnv idleState ⟨"0xa11ce"⟩ sampleOwned rfl rfl rfl

/-- C6 fails as stated: with `PACKAGE_ID = "0xabc"`, the escrow object of
`sampleOwned` has another type than `0xabc::deed::RealEstateDeed`, yet it is in
the cache after the refresh, and the cache is not the sublist of the objects
of the deed type. -/
theorem C6_counterexample :
    typeOf ⟨some ⟨"0xe1", some ⟨some "0xdef::escrow::Escrow<0xabc::deed::RealEstateDeed>"⟩⟩⟩
        ≠ some (deedType sampleEnv.PACKAGE_ID) ∧
      (⟨some ⟨"0xe1", some ⟨some "0xdef::escrow::Escrow<0xabc::deed::RealEstateDeed>"⟩⟩⟩
          : SuiObject) ∈ (exec idleState (fetchDeeds sampleEnv idleState)).deeds ∧
      (exec idleState (fetchDeeds sampleEnv idleState)).deeds
        ≠ sampleOwned.filter (hasDeedType sampleEnv.PACKAGE_ID) := by
  refine ⟨by decide, by decide, by decide⟩

/-- C8, as amended: after a change of the wallet session, if the wallet is
disconnected (or has no account) the only effect is `setDeeds([])`, with no
ledger query; if it is connected with an account, the effect itself runs
`fetchDeeds`: one ledger query for the account's address is issued, and the
cache is replaced by the filtered result when the query succeeds and kept,
with an error feedback, when it fails. -/
theorem C8_connection_change (env : Env) (s : AppState) :
    ((s.connected = false ∨ s.account = none) →
        connectionEffect env s = [.setDeeds []] ∧
        (exec s (connectionEffect env s)).deeds = [] ∧
        ledgerQueries (connectionEffect env s) = []) ∧
      (∀ a, s.connected = true → s.account = some a →
        connectionEffect env s = fetchDeeds env s ∧
        ledgerQueries (connectionEffect env s) = [a.address] ∧
        (∀ data, env.queryOutcome a.address = .ok data →
          (exec s (connectionEffect env s)).deeds = data.filter (isDeed env.PACKAGE_ID)) ∧
        (∀ m, env.queryOutcome a.address = .error m →
          (exec s (connectionEffect env s)).deeds = s.deeds ∧
          (exec s (connectionEffect env s)).feedback
            = "Error fetching deeds. Please try again.")) := by
  constructor
  · intro h
    have he : connectionEffect env s = [.setDeeds []] := by
      rcases h with h | h <;> simp [connectionEffect, h]
    simp [he, exec, applyEvent, ledgerQueries]
  · intro a hc ha
    have he : connectionEffect env s = fetchDeeds env s := by
      simp [connectionEffect, hc, ha]
    refine ⟨he, ?_, ?_, ?_⟩
    · rw [he, fetchDeeds, ledgerQueries_append, ledgerQueries_fetchDeedsResume]
      simp [fetchDeedsStart, hc, ha, ledgerQueries]
    · intro data hq
      rw [he, fetchDeeds_of_query_ok hc ha hq]
      simp [exec, applyEvent]
    · intro m hq
      rw [he, fetchDeeds_of_query_error hc ha hq]
      simp [exec, applyEvent]

/-- C8 fails as stated: the disconnect clears the cache, but on reconnecting
the effect issues a ledger query at once and the cache is filled, without any
intent having been issued. -/
theorem C8_counterexample :
    offlineState.deeds ≠ [] ∧ clearedState.deeds = [] ∧
      reconnectedState.connected = true ∧ reconnectedState.deeds = [] ∧
      ledgerQueries (connectionEffect sampleEnv reconnectedState) = ["0xa11ce"] ∧
      (exec reconnectedState (connectionEffect sampleEnv reconnectedState)).deeds ≠ [] := by
  refine ⟨by decide, by decide, by decide, by decide, by decide, by decide⟩

theorem mkArg_cases (env : Env) (k : ArgKind) (v : String) :
    (∃ m, env.encoderThrows k v = some m ∧ mkArg env k v = .error m) ∨
      (env.encoderThrows k v = none ∧ mkArg env k v = .ok ⟨k, v⟩) := by
  unfold mkArg
  cases h : env.encoderThrows k v <;> simp

theorem append_left_cancel_string {p a b : String} (h : p ++ a = p ++ b) : a = b := by
  have hd : (p ++ a).data = (p ++ b).data := congrArg String.data h
  rw [String.data_append, String.data_append] at hd
  exact String.ext (List.append_cancel_left hd)

theorem updatePropertyValueTx_cases (env : Env) (deedId newValue : String) :
    (∃ m, updatePropertyValueTx env deedId newValue = .error m ∧
        (env.encoderThrows .object deedId = some m ∨
          (env.encoderThrows .object deedId = none ∧
            env.encoderThrows .u64 newValue = some m))) ∨
      (env.encoderThrows .object deedId = none ∧ env.encoderThrows .u64 newValue = none ∧
        updatePropertyValueTx env deedId newValue =
          .ok ⟨env.PACKAGE_ID ++ "::deed::update_property_value",
            [⟨.object, deedId⟩, ⟨.u64, newValue⟩]⟩) := by
  unfold updatePropertyValueTx
  rcases mkArg_cases env .object deedId with ⟨m, h0, e0⟩ | ⟨h0, e0⟩
  · exact Or.inl ⟨m, by simp [e0, bind, Except.bind], Or.inl h0⟩
  · rcases mkArg_cases env .u64 newValue with ⟨m, h1, e1⟩ | ⟨h1, e1⟩
    · exact Or.inl ⟨m, by simp [e0, e1, bind, Except.bind], Or.inr ⟨h0, h1⟩⟩
    · exact Or.inr ⟨h0, h1, by simp [e0, e1, bind, Except.bind, pure, Except.pure]⟩

/-- C5, as amended: in a connected state `updatePropertyValue` does not
examine `newValue` itself; the value goes as it is to the builder's `u64`
encoder inside the `try` block.  When that encoder throws, no wallet call and
no ledger query is issued, the deeds cache is unchanged, `isLoading` ends
false, and (the object encoder accepting `deedId`) the feedback is `Error: `
followed by the encoder's message.  When the encoders accept the values, the
wallet call is issued with `[object deedId, u64 newValue]`. -/
theorem C5_value_checked_by_encoder_only (env : Env) (s : AppState) (deedId newValue : String)
    (hc : s.connected = true) :
    (∀ m, env.encoderThrows .u64 newValue = some m →
        walletCalls (updatePropertyValue env s deedId newValue) = [] ∧
        ledgerQueries (updatePropertyValue env s deedId newValue) = [] ∧
        (exec s (updatePropertyValue env s deedId newValue)).deeds = s.deeds ∧
        (exec s (updatePropertyValue env s deedId newValue)).isLoading = false ∧
        (env.encoderThrows .object deedId = none →
          updatePropertyValue env s deedId newValue =
            [.setIsLoading true, .setFeedback "", .setFeedback ("Error: " ++ m),
              .setIsLoading false])) ∧
      (env.encoderThrows .object deedId = none → env.encoderThrows .u64 newValue = none →
        walletCalls (updatePropertyValue env s deedId newValue) =
          [⟨env.PACKAGE_ID ++ "::deed::update_property_value",
            [⟨.object, deedId⟩, ⟨.u64, newValue⟩]⟩]) := by
  have hv : validationPasses env s (.updatePropertyValue deedId newValue) = true := by
    simp [validationPasses, hc]
  have hhandle : handle env s (.updatePropertyValue deedId newValue)
      = updatePropertyValue env s deedId newValue := rfl
  have hbuild : buildTx env s (.updatePropertyValue deedId newValue)
      = updatePropertyValueTx env deedId newValue := rfl
  constructor
  · intro m hm
    rcases updatePropertyValueTx_cases env deedId newValue with ⟨m', hb, hwhy⟩ | ⟨_, h1, _⟩
    · have h := handle_of_build_error hv (hbuild.trans hb)
      rw [hhandle] at h
      refine ⟨?_, ?_, ?_, ?_, ?_⟩
      · simp [h, walletCalls]
      · simp [h, ledgerQueries]
      · simp [h, exec, applyEvent]
      · simp [h, exec, applyEvent]
      · intro ho
        rcases hwhy with hwhy | ⟨_, hwhy⟩
        · rw [ho] at hwhy
          cases hwhy
        · rw [hm] at hwhy
          cases hwhy
          exact h
    · rw [hm] at h1
      cases h1
  · intro ho hu
    rcases updatePropertyValueTx_cases env deedId newValue with ⟨m', _, hwhy⟩ | ⟨_, _, hb⟩
    · rcases hwhy with hwhy | ⟨_, hwhy⟩
      · rw [ho] at hwhy
        cases hwhy
      · rw [hu] at hwhy
        cases hwhy
    · rw [← hhandle]
      cases hs : env.signOutcome
          ⟨env.PACKAGE_ID ++ "::deed::update_property_value",
            [⟨.object, deedId⟩, ⟨.u64, newValue⟩]⟩ with
      | error m =>
        rw [handle_of_sign_error hv (hbuild.trans hb) hs]
        simp [walletCalls]
      | ok u =>
        rw [handle_of_sign_ok hv (hbuild.trans hb) hs]
        simp only [walletCalls_append, walletCalls_fetchDeedsStart,
          walletCalls_fetchDeedsResume]
        simp [walletCalls]

/-- C5 at a concrete input: the new value `abc` in `idleState`. -/
theorem C5_value_checked_by_encoder_only_witness :
    (∀ m, sampleEnv.encoderThrows .u64 "abc" = some m →
        walletCalls (updatePropertyValue sampleEnv idleState "0xd1" "abc") = [] ∧
        ledgerQueries (updatePropertyValue sampleEnv idleState "0xd1" "abc") = [] ∧
        (exec idleState (updatePropertyValue sampleEnv idleState "0xd1" "abc")).deeds
          = idleState.deeds ∧
        (exec idleState (updatePropertyValue sampleEnv idleState "0xd1" "abc")).isLoading
          = false ∧
        (sampleEnv.encoderThrows .object "0xd1" = none →
          updatePropertyValue sampleEnv idleState "0xd1" "abc" =
            [.setIsLoading true, .setFeedback "", .setFeedback ("Error: " ++ m),
              .setIsLoading false])) ∧
      (sampleEnv.encoderThrows .object "0xd1" = none →
        sampleEnv.encoderThrows .u64 "abc" = none →
        walletCalls (updatePropertyValue sampleEnv idleState "0xd1" "abc") =
          [⟨sampleEnv.PACKAGE_ID ++ "::deed::update_property_value",
            [⟨.object, "0xd1"⟩, ⟨.u64, "abc"⟩]⟩]) :=
  C5_value_checked_by_encoder_only sampleEnv idleState "0xd1" "abc" rfl

/-- C5 fails as stated: the empty string is not a non-negative integer, yet
with it as the new value the wallet call is issued, because `BigInt` reads the
empty string as 0 and the handler has no check of its own. -/
theorem C5_counterexample :
    idleState.connected = true ∧ parsesAsNonNegInt "" = false ∧
      walletCalls (updatePropertyValue sampleEnv idleState "0xd1" "")
        = [⟨"0xabc::deed::update_property_value", [⟨.object, "0xd1"⟩, ⟨.u64, ""⟩]⟩] ∧
      ledgerQueries (updatePropertyValue sampleEnv idleState "0xd1" "") = ["0xa11ce"] := by
  refine ⟨by decide, by decide, by decide, by decide⟩

theorem buildTx_ok_eq_specCall {env : Env} {s : AppState} {i : Intent} {tx : MoveCall}
    (h : buildTx env s i = .ok tx) :
    tx = specCall env.PACKAGE_ID (ownerOf s) s i ∧ (i = .mintDeed → s.account.isSome = true) := by
  cases i with
  | mintDeed =>
    simp only [buildTx, mintTx] at h
    cases ha : s.account with
    | none => simp [ha] at h
    | some acct =>
      simp only [ha] at h
      rcases mkArg_cases env .address acct.address with ⟨m, _, e0⟩ | ⟨_, e0⟩ <;>
        rcases mkArg_cases env .string s.address with ⟨m, _, e1⟩ | ⟨_, e1⟩ <;>
        rcases mkArg_cases env .string s.titleStatus with ⟨m, _, e2⟩ | ⟨_, e2⟩ <;>
        rcases mkArg_cases env .u64 s.propertyValue with ⟨m, _, e3⟩ | ⟨_, e3⟩ <;>
        simp [e0, e1, e2, e3, bind, Except.bind, pure, Except.pure] at h
      simp [← h, specCall, ownerOf, ha]
  | transferDeed deedId =>
    simp only [buildTx, transferTx] at h
    rcases mkArg_cases env .object deedId with ⟨m, _, e0⟩ | ⟨_, e0⟩ <;>
      rcases mkArg_cases env .address s.recipientAddress with ⟨m, _, e1⟩ | ⟨_, e1⟩ <;>
      simp [e0, e1, bind, Except.bind, pure, Except.pure] at h
    simp [← h, specCall]
  | updateTitleStatus deedId newStatus =>
    simp only [buildTx, updateTitleStatusTx] at h
    rcases mkArg_cases env .object deedId with ⟨m, _, e0⟩ | ⟨_, e0⟩ <;>
      rcases mkArg_cases env .string newStatus with ⟨m, _, e1⟩ | ⟨_, e1⟩ <;>
      simp [e0, e1, bind, Except.bind, pure, Except.pure] at h
    simp [← h, specCall]
  | updatePropertyValue deedId newValue =>
    simp only [buildTx, updatePropertyValueTx] at h
    rcases mkArg_cases env .object deedId with ⟨m, _, e0⟩ | ⟨_, e0⟩ <;>
      rcases mkArg_cases env .u64 newValue with ⟨m, _, e1⟩ | ⟨_, e1⟩ <;>
      simp [e0, e1, bind, Except.bind, pure, Except.pure] at h
    simp [← h, specCall]

theorem buildTx_of_accepting {env : Env} {s : AppState} {i : Intent}
    (hacc : ∀ k v, env.encoderThrows k v = none)
    (hacct : i = .mintDeed → s.account.isSome = true) :
    buildTx env s i = .ok (specCall env.PACKAGE_ID (ownerOf s) s i) := by
  have hm : ∀ k v, mkArg env k v = .ok ⟨k, v⟩ := fun k v => by simp [mkArg, hacc k v]
  cases i with
  | mintDeed =>
    cases ha : s.account with
    | none => simp [ha] at hacct
    | some acct =>
      simp [buildTx, mintTx, ha, hm, specCall, ownerOf, bind, Except.bind, pure, Except.pure]
  | transferDeed deedId =>
    simp [buildTx, transferTx, hm, specCall, bind, Except.bind, pure, Except.pure]
  | updateTitleStatus deedId newStatus =>
    simp [buildTx, updateTitleStatusTx, hm, specCall, bind, Except.bind, pure, Except.pure]
  | updatePropertyValue deedId newValue =>
    simp [buildTx, updatePropertyValueTx, hm, specCall, bind, Except.bind, pure, Except.pure]

theorem mem_handle_sign {env : Env} {s : AppState} {i : Intent} {tx : MoveCall}
    (h : Event.signAndExecuteTransactionBlock tx ∈ handle env s i) :
    buildTx env s i = .ok tx := by
  rcases confirmed_cases env s i with ⟨_, hv | ⟨hv, m, hb⟩ | ⟨hv, tx', m, hb, hs⟩⟩ |
    ⟨_, hv, tx', hb, hs⟩
  · rw [handle_of_rejected hv] at h
    simp at h
  · rw [handle_of_build_error hv hb] at h
    simp at h
  · rw [handle_of_sign_error hv hb hs] at h
    simp at h
    rw [hb, h]
  · rw [handle_of_sign_ok hv hb hs] at h
    simp only [List.mem_append, List.mem_cons, List.mem_singleton, List.not_mem_nil,
      or_false] at h
    rcases h with ((h | h) | h) | h
    · rcases h with h | h | h | h
      · cases h
      · cases h
      · cases h
        exact hb
      · cases h
    · rcases mem_fetchDeedsStart h with h | ⟨o, h⟩ <;> cases h
    · cases h
    · rcases mem_fetchDeedsResume h with ⟨ds, h⟩ | h <;> cases h

/-- C9: the call descriptor of each intent is the one the specification
prescribes: target `PACKAGE_ID::deed::<fn>` and the ordered, typed arguments,
nothing added, dropped or reordered.  Whatever descriptor an intent builds,
and whatever descriptor reaches `signAndExecuteTransactionBlock`, is that one;
it is built whenever the encoders accept the values (and, for mint, an account
is present); and the targets of two intents agree only if the intents are of
the same kind. -/
theorem C9_marshaling (env : Env) (s : AppState) (i : Intent) :
    (∀ tx, buildTx env s i = .ok tx → tx = specCall env.PACKAGE_ID (ownerOf s) s i) ∧
      (∀ tx, Event.signAndExecuteTransactionBlock tx ∈ handle env s i →
        tx = specCall env.PACKAGE_ID (ownerOf s) s i) ∧
      ((∀ k v, env.encoderThrows k v = none) → (i = .mintDeed → s.account.isSome = true) →
        buildTx env s i = .ok (specCall env.PACKAGE_ID (ownerOf s) s i)) ∧
      (∀ j : Intent,
        (specCall env.PACKAGE_ID (ownerOf s) s i).target
          = (specCall env.PACKAGE_ID (ownerOf s) s j).target → i.kind = j.kind) := by
  refine ⟨fun tx h => (buildTx_ok_eq_specCall h).1,
    fun tx h => (buildTx_ok_eq_specCall (mem_handle_sign h)).1,
    fun hacc hacct => buildTx_of_accepting hacc hacct, ?_⟩
  intro j h
  cases i <;> cases j <;> first
    | rfl
    | (exact absurd (append_left_cancel_string h) (by decide))

/-- The sample `u64` encoder on a few strings: the empty string and padded
digits are accepted, a negative number, letters and a decimal point are not. -/
theorem sampleEncoderThrows_samples :
    stringToBigInt "" = some 0 ∧ stringToBigInt " 12 " = some 12 ∧
      stringToBigInt "0x1f" = some 31 ∧ stringToBigInt "1.5" = none ∧
      sampleEncoderThrows .u64 "" = none ∧
      sampleEncoderThrows .u64 "250000" = none ∧
      sampleEncoderThrows .u64 "abc" = some "Cannot convert abc to a BigInt" ∧
      sampleEncoderThrows .u64 "-5"
        = some "Invalid u64 value: -5. Expected value in range 0-18446744073709551615" := by
  refine ⟨by decide, by decide, by decide, by decide, by decide, by decide, by decide,
    by decide⟩

end Suitest
